import Mathlib

/-
Verification of the ruspiro-uart driver (Raspberry Pi UART0 / PL011 "UART-Full"
and UART1 / miniUART "UART-Mini").

Shallow embedding conventions:
- u32 arithmetic is Nat with explicit wrap (% 2^32) where the Rust code can
  overflow; a u32 division by zero is a Rust panic and is modelled as an
  Option result of none.
- MMIO traffic is modelled as a trace of events: a single register read, a
  busy-wait loop on a status register (one or more reads, number immaterial
  to every property stated here), or a register write carrying the bit mask
  of the touched field(s) and the value merged in (whole-register set uses
  the full 32-bit mask).
- The GPIO pin lease is an external collaborator; its success or failure per
  pin enters the model as a Boolean parameter.
-/

namespace RuspiroUart

/-- 2^32, the modulus of u32 arithmetic. -/
def U32MOD : Nat := 4294967296

/-- Mask of a whole-register write (all 32 bits). -/
def FULL : Nat := 4294967295

/-- Registers of the UART0 (PL011) block, src/uart0/interface.rs. -/
inductive Uart0Reg
  | DR | RSRECR | FR | IBRD | FBRD | LCRH | CR | IFLS | IMSC | RIS | MIS | ICR
deriving DecidableEq

/-- Registers of the AUX (miniUART) block, src/uart1/interface.rs and
src/interface.rs. -/
inductive AuxReg
  | AUX_IRQ | AUX_ENABLES | AUX_MU_IO_REG | AUX_MU_IER_REG | AUX_MU_IIR_REG
  | AUX_MU_LCR_REG | AUX_MU_MCR_REG | AUX_MU_LSR_REG | AUX_MU_MSR_REG
  | AUX_MU_CNTL_REG | AUX_MU_STAT_REG | AUX_MU_BAUD_REG
deriving DecidableEq

/-- One hardware access. A spin event stands for a busy-wait loop polling a
status register until a bit flips; the loop performs reads only, so the
number of iterations is irrelevant to the register state and to every claim
below. -/
inductive Ev (R : Type)
  | read (reg : R)
  | spin (reg : R)
  | write (reg : R) (mask value : Nat)
deriving DecidableEq

/-- Error taxonomy of src/errors.rs. -/
inductive UartErrorType
  | InitializationFailed | UartNotInitialized | SendDataFailed
  | ReceiveDataFailed | ReceiveBufferEmpty | ReceiveDataTimeOut
deriving DecidableEq

/-- Concatenate a list of event blocks (List.join of the era, written out). -/
def concatAll {α : Type} : List (List α) → List α
  | [] => []
  | l :: ls => l ++ concatAll ls

/-- Does the event write to register r? -/
def writesTo {R : Type} [DecidableEq R] (r : R) (e : Ev R) : Bool :=
  match e with
  | .write reg _ _ => decide (reg = r)
  | _ => false

/- ------------------------------------------------------------------
   UART0 (PL011), src/uart0/interface.rs
   ------------------------------------------------------------------ -/

/-- src/uart0/interface.rs line 46: baud16 = baud_rate * 16 (u32, wraps). -/
def uart0_baud16 (baud_rate : Nat) : Nat := baud_rate * 16 % U32MOD

/-- src/uart0/interface.rs line 47: int_div = clock_rate / baud16. -/
def uart0_int_div (clock_rate baud_rate : Nat) : Nat :=
  clock_rate / uart0_baud16 baud_rate

/-- src/uart0/interface.rs line 48:
frac_div2 = (clock_rate % baud16) * 8 / baud_rate, with the u32
multiplication wrapping. -/
def uart0_frac_div2 (clock_rate baud_rate : Nat) : Nat :=
  clock_rate % uart0_baud16 baud_rate * 8 % U32MOD / baud_rate

/-- src/uart0/interface.rs line 49: frac_div = frac_div2/2 + frac_div2%2. -/
def uart0_frac_div (clock_rate baud_rate : Nat) : Nat :=
  uart0_frac_div2 clock_rate baud_rate / 2 + uart0_frac_div2 clock_rate baud_rate % 2

/-- The nine register writes of UART0 init (src/uart0/interface.rs lines
52-67), in program order. Field writes carry (mask, value):
IFLS.RXIFSEL = bits 3-5, value 0 (one-eighth watermark);
LCRH.WLEN = 3 at bits 5-6 and FEN = 1 at bit 4 (mask and value 112);
CR.UART_EN bit 0, TXE bit 8, RXE bit 9 all 1 (mask and value 769);
IMSC.INT_RX bit 4 and INT_OE bit 10 (mask and value 1040). -/
def uart0_config_writes (clock_rate baud_rate : Nat) : List (Ev Uart0Reg) :=
  [ .write .CR FULL 0,
    .write .IMSC FULL 0,
    .write .ICR FULL 0x7FF,
    .write .IBRD FULL (uart0_int_div clock_rate baud_rate),
    .write .FBRD FULL (uart0_frac_div clock_rate baud_rate),
    .write .IFLS 56 0,
    .write .LCRH 112 112,
    .write .CR 769 769,
    .write .IMSC 1040 1040 ]

/-- src/uart0/interface.rs init (lines 35-72). The two pin-lease outcomes
are parameters. If either pin lease fails the GPIO closure returns the
InitializationFailed error and the and_then branch with the writes never
runs. With the pins acquired, the divisor arithmetic at lines 46-49 runs
before any write; when baud16 is zero the division clock_rate / baud16
panics (result none, no write). Otherwise all nine writes happen. -/
def uart0_init (pin32ok pin33ok : Bool) (clock_rate baud_rate : Nat) :
    List (Ev Uart0Reg) × Option (Except UartErrorType Unit) :=
  if pin32ok && pin33ok then
    if uart0_baud16 baud_rate = 0 then ([], none)
    else (uart0_config_writes clock_rate baud_rate, some (Except.ok ()))
  else ([], some (Except.error UartErrorType.InitializationFailed))

/-- Driver handle of src/uart0/mod.rs (field initialized, line 23). -/
structure Uart0 where
  initialized : Bool
deriving DecidableEq

/-- Uart0::new (src/uart0/mod.rs line 28). -/
def Uart0.new : Uart0 := ⟨false⟩

/-- Effect of Uart0::initialize (src/uart0/mod.rs lines 44-48) on the
handle: the initialized flag is set only when interface::init returned Ok;
on an error, and on a panic inside init, the handle is untouched. -/
def uart0_after_init (u : Uart0) (pin32ok pin33ok : Bool) (clock_rate baud_rate : Nat) :
    Uart0 :=
  match (uart0_init pin32ok pin33ok clock_rate baud_rate).2 with
  | some (Except.ok ()) => ⟨true⟩
  | _ => u

/-- src/uart0/interface.rs send_byte (lines 81-87): spin on FR.TXFF, then
set DR to the byte. -/
def uart0_send_byte (data : Nat) : List (Ev Uart0Reg) :=
  [.spin .FR, .write .DR FULL data]

/-- Uart0::send_data (src/uart0/mod.rs lines 62-73). -/
def Uart0.send_data (u : Uart0) (data : List Nat) :
    List (Ev Uart0Reg) × Except UartErrorType Unit :=
  if u.initialized then (concatAll (data.map uart0_send_byte), Except.ok ())
  else ([], Except.error UartErrorType.UartNotInitialized)

/-- Uart0::receive_data (src/uart0/mod.rs lines 88-101) for a buffer of n
bytes; dr i is the value the i-th DR read returns. interface::receive_byte
spins on FR.RXFE without bound and always returns Ok of the low byte, so
the loop body never propagates an error and the call returns Ok n. -/
def Uart0.receive_data (u : Uart0) (n : Nat) (dr : Nat → Nat) :
    List (Ev Uart0Reg) × Except UartErrorType (List Nat × Nat) :=
  if u.initialized then
    if n = 0 then ([], Except.error UartErrorType.ReceiveBufferEmpty)
    else (concatAll ((List.range n).map fun _ => [Ev.spin .FR, Ev.read .DR]),
          Except.ok ((List.range n).map fun i => dr i % 256, n))
  else ([], Except.error UartErrorType.UartNotInitialized)

/- ------------------------------------------------------------------
   UART1 (miniUART), src/uart1/interface.rs and src/uart1/mod.rs
   (src/interface.rs and src/lib.rs are the identical historical copy)
   ------------------------------------------------------------------ -/

/-- src/uart1/interface.rs line 48: clock_rate/(8*baud_rate)-1 in u32:
the multiplication and the subtraction wrap, callers guard div-by-zero
outside. Meaningful for clock_rate < 2^32. -/
def uart1_baud_divisor (clock_rate baud_rate : Nat) : Nat :=
  (clock_rate / (8 * baud_rate % U32MOD) + U32MOD - 1) % U32MOD

/-- The seven writes of uart1_init before the baud write
(src/uart1/interface.rs lines 37-47): AUX_ENABLES.MINIUART_ENABLE = 1
(bit 0); IER = 0; CNTL = 0; LCR.DATASIZE = 3 (bits 0-1); MCR = 0; IER = 0
again; IIR.IRQID_FIFOCLR = 3 (bits 1-2) with IIR.FIFO_ENABLES = 3
(bits 6-7), mask and value 198. -/
def uart1_partial_writes : List (Ev AuxReg) :=
  [ .write .AUX_ENABLES 1 1,
    .write .AUX_MU_IER_REG FULL 0,
    .write .AUX_MU_CNTL_REG FULL 0,
    .write .AUX_MU_LCR_REG 3 3,
    .write .AUX_MU_MCR_REG FULL 0,
    .write .AUX_MU_IER_REG FULL 0,
    .write .AUX_MU_IIR_REG 198 198 ]

/-- All nine writes of uart1_init (src/uart1/interface.rs lines 37-54): the
seven above, then AUX_MU_BAUD_REG set to the divisor, then
CNTL.RCV_ENABLE | CNTL.TRANS_ENABLE (bits 0-1, mask and value 3). -/
def uart1_config_writes (clock_rate baud_rate : Nat) : List (Ev AuxReg) :=
  uart1_partial_writes ++
  [ .write .AUX_MU_BAUD_REG FULL (uart1_baud_divisor clock_rate baud_rate),
    .write .AUX_MU_CNTL_REG 3 3 ]

/-- src/uart1/interface.rs uart1_init (lines 26-56). On a pin-lease failure
the map closure with the writes never runs. With the pins acquired, the
first seven writes happen; the baud expression then divides by
8*baud_rate (wrapped), so if that wrapped product is zero the init panics
mid-sequence (result none) and the final two writes are lost. -/
def uart1_init (pin14ok pin15ok : Bool) (clock_rate baud_rate : Nat) :
    List (Ev AuxReg) × Option (Except String Unit) :=
  if pin14ok && pin15ok then
    if 8 * baud_rate % U32MOD = 0 then (uart1_partial_writes, none)
    else (uart1_config_writes clock_rate baud_rate, some (Except.ok ()))
  else ([], some (Except.error "GPIO error"))

/-- Driver handle of src/uart1/mod.rs (field initialized, line 35; the gpio
handle is an external collaborator and carries no state this model needs). -/
structure Uart1 where
  initialized : Bool
deriving DecidableEq

/-- src/uart1/interface.rs uart1_send_data (lines 78-86): per byte, spin on
LSR.TRANSEMPTY then set the IO register to the byte. -/
def uart1_send_data_events (data : List Nat) : List (Ev AuxReg) :=
  concatAll (data.map fun byte => [Ev.spin .AUX_MU_LSR_REG, Ev.write .AUX_MU_IO_REG FULL byte])

/-- Rust expression c as u8 on a char: the low 8 bits of the code point. -/
def rust_char_as_u8 (c : Nat) : Nat := c % 256

/-- UTF-8 encoding of one code point, the byte sequence Rust str::as_bytes
exposes for that character. -/
def utf8_encode_char (c : Nat) : List Nat :=
  if c < 128 then [c]
  else if c < 2048 then [192 + c / 64, 128 + c % 64]
  else if c < 65536 then [224 + c / 4096, 128 + c / 64 % 64, 128 + c % 64]
  else [240 + c / 262144, 128 + c / 4096 % 64, 128 + c / 64 % 64, 128 + c % 64]

/-- Uart1::send_char (src/uart1/mod.rs lines 118-122): gated on the
initialized flag; uart1_send_char (interface line 67-70) sends the single
byte c as u8. -/
def Uart1.send_char (u : Uart1) (c : Nat) : List (Ev AuxReg) :=
  if u.initialized then uart1_send_data_events [rust_char_as_u8 c] else []

/-- Uart1::send_string (src/uart1/mod.rs lines 135-139): gated on the
initialized flag; uart1_send_string (interface line 73-75) sends the UTF-8
bytes of the string (here a list of code points). -/
def Uart1.send_string (u : Uart1) (s : List Nat) : List (Ev AuxReg) :=
  if u.initialized then uart1_send_data_events (concatAll (s.map utf8_encode_char)) else []

/-- Uart1::send_data (src/uart1/mod.rs lines 151-155). -/
def Uart1.send_data (u : Uart1) (d : List Nat) : List (Ev AuxReg) :=
  if u.initialized then uart1_send_data_events d else []

/-- src/uart1/interface.rs uart1_receive_data (lines 91-104), one byte.
readyAt is the index of the first poll of LSR.DATAREADY that reads 1 (none
if data never arrives); ioVal is the value the IO-register read returns.
The loop exits at poll k when data is ready there, or once count reaches
the timeout; the Ok branch is taken only when the timeout was not reached,
so data arriving exactly at poll index timeout is still reported as a
timeout. With timeout 0 and no data the loop never terminates (none). -/
def uart1_receive_data (timeout : Nat) (readyAt : Option Nat) (ioVal : Nat) :
    List (Ev AuxReg) × Option (Except String Nat) :=
  match readyAt with
  | some k =>
      if timeout = 0 ∨ k < timeout then
        ([Ev.spin .AUX_MU_LSR_REG, Ev.read .AUX_MU_IO_REG], some (Except.ok (ioVal % 256)))
      else ([Ev.spin .AUX_MU_LSR_REG], some (Except.error "Timeout"))
  | none =>
      if timeout = 0 then ([Ev.spin .AUX_MU_LSR_REG], none)
      else ([Ev.spin .AUX_MU_LSR_REG], some (Except.error "Timeout"))

/-- Does the bounded single-byte receive with this first-ready index
succeed within t polls? -/
def readyWithin (readyAt : Option Nat) (t : Nat) : Bool :=
  match readyAt with
  | some k => decide (k < t)
  | none => false

/-- The byte loop of Uart1::try_receive_data / Uart1::receive_data
(src/uart1/mod.rs lines 212-214 and 246-248): bytes i, i+1, ... are read
one at a time; the first errored byte aborts the whole loop via the
question-mark operator. readys j and vals j describe the hardware while
byte j is awaited (the poll counter restarts for every byte). -/
def uart1_receive_loop (timeout : Nat) (readys : Nat → Option Nat) (vals : Nat → Nat) :
    Nat → Nat → List (Ev AuxReg) × Option (Except String Unit)
  | _, 0 => ([], some (Except.ok ()))
  | i, m + 1 =>
      match uart1_receive_data timeout (readys i) (vals i) with
      | (evs, some (Except.ok _)) =>
          let r := uart1_receive_loop timeout readys vals (i + 1) m
          (evs ++ r.1, r.2)
      | (evs, some (Except.error e)) => (evs, some (Except.error e))
      | (evs, none) => (evs, none)

/-- Uart1::try_receive_data (src/uart1/mod.rs lines 204-221) for a buffer
of n bytes: not-initialized and empty-buffer guards, then the byte loop
with the fixed per-byte timeout of 1000; on success the buffer length n is
returned, on a byte timeout the Err of that byte. -/
def Uart1.try_receive_data (u : Uart1) (n : Nat) (readys : Nat → Option Nat)
    (vals : Nat → Nat) : List (Ev AuxReg) × Option (Except String Nat) :=
  if u.initialized then
    if n = 0 then ([], some (Except.error "buffer size expected to be at least 1"))
    else
      match uart1_receive_loop 1000 readys vals 0 n with
      | (evs, some (Except.ok ())) => (evs, some (Except.ok n))
      | (evs, some (Except.error e)) => (evs, some (Except.error e))
      | (evs, none) => (evs, none)
  else ([], some (Except.error "Uart not initialized"))

/- ------------------------------------------------------------------
   Interrupt bridge, src/uart1/interface.rs lines 106-142 and
   src/uart1/mod.rs lines 324-337
   ------------------------------------------------------------------ -/

/-- InterruptType of src/lib.rs lines 66-70 (source spelling kept). -/
inductive InterruptType
  | Receive | Transmit | RecieveTransmit
deriving DecidableEq

/-- Modelled from the spec: the write_value operation of the external
ruspiro-register crate (the Register Map of spec section 4.1, whose code is
not part of this repository) masks each field value to its width and merges
it into the register without disturbing bits outside the written fields.
For AUX_MU_IER_REG the fields are RX_ENABLE at bit 0, TX_ENABLE at bit 1
and the two-bit RCV_IRQ at bits 2-3; a field argument of none is not part
of the write and keeps the old bits. -/
def ier_field_write (old : Nat) (rx tx irq : Option Nat) : Nat :=
  (match rx with | some v => v % 2 | none => old % 2) +
  2 * (match tx with | some v => v % 2 | none => old / 2 % 2) +
  4 * (match irq with | some v => v % 4 | none => old / 4 % 4) +
  16 * (old / 16)

/-- src/uart1/interface.rs uart1_enable_interrupts (lines 106-128): every
branch writes RCV_IRQ = 0b11; Receive also writes RX_ENABLE = 1, Transmit
also TX_ENABLE = 1, RecieveTransmit both. old is the current IER value and
the result the value left in the register. -/
def uart1_enable_interrupts (i_type : InterruptType) (old : Nat) : Nat :=
  match i_type with
  | .Receive => ier_field_write old (some 1) none (some 3)
  | .Transmit => ier_field_write old none (some 1) (some 3)
  | .RecieveTransmit => ier_field_write old (some 1) (some 1) (some 3)

/-- The two process-wide handler slots RCV_HANDLER and TRN_HANDLER
(src/uart1/mod.rs lines 358-359); a callback is an opaque id. -/
structure IrqSlots where
  rcv : Option Nat
  trn : Option Nat
deriving DecidableEq

/-- Uart1::register_interrupt_handler (src/uart1/mod.rs lines 324-337).
Only the Receive arm does anything: it replaces RCV_HANDLER, activates the
Aux interrupt line and calls enable_interrupts, which is itself gated on
the initialized flag; every other direction falls into the wildcard arm
and is a no-op. The second component reports which interrupt source was
enabled as a side effect (none if no IER write happened). -/
def register_interrupt_handler (u : Uart1) (s : IrqSlots) (irq_type : InterruptType)
    (f : Nat) : IrqSlots × Option InterruptType :=
  match irq_type with
  | .Receive => ({ s with rcv := some f }, if u.initialized then some .Receive else none)
  | _ => (s, none)

/- ------------------------------------------------------------------
   Theorems
   ------------------------------------------------------------------ -/

/-- C1 (counterexample): at baud_rate = 0 the divisor arithmetic of UART0
init divides by zero (clock_rate / baud16 with baud16 = 0), a Rust panic;
no value is computed and no register is written, so initialization does
not write the integer and fractional divisor registers for every
(clock_rate, baud_rate) as the claim states. -/
theorem c1_counterexample :
    (uart0_init true true 3000000 0).1 = [] ∧
    (uart0_init true true 3000000 0).2 = none :=
  ⟨rfl, rfl⟩

/-- C1 (amended): with the two pin leases acquired and baud_rate * 16 not
zero modulo 2^32 (in particular baud_rate positive, so no division
panics), UART0 init writes exactly one value to the integer-divisor
register IBRD, namely int_div = clock_rate / baud16 with
baud16 = baud_rate * 16, and exactly one value to the fractional-divisor
register FBRD, namely frac_div = frac_remainder / 2 + frac_remainder % 2
with frac_remainder = (clock_rate % baud16) * 8 / baud_rate, all in
wrapping u32 arithmetic, and returns Ok. -/
theorem c1_divisor_writes (pin32ok pin33ok : Bool) (clock_rate baud_rate : Nat)
    (h32 : pin32ok = true) (h33 : pin33ok = true)
    (hb : baud_rate * 16 % U32MOD ≠ 0) :
    (uart0_init pin32ok pin33ok clock_rate baud_rate).1.filter (writesTo .IBRD) =
      [Ev.write .IBRD FULL (clock_rate / (baud_rate * 16 % U32MOD))] ∧
    (uart0_init pin32ok pin33ok clock_rate baud_rate).1.filter (writesTo .FBRD) =
      [Ev.write .FBRD FULL
        (clock_rate % (baud_rate * 16 % U32MOD) * 8 % U32MOD / baud_rate / 2 +
         clock_rate % (baud_rate * 16 % U32MOD) * 8 % U32MOD / baud_rate % 2)] ∧
    (uart0_init pin32ok pin33ok clock_rate baud_rate).2 = some (Except.ok ()) := by
  subst h32 h33
  have hb' : uart0_baud16 baud_rate ≠ 0 := hb
  refine ⟨?_, ?_, ?_⟩ <;>
    simp [uart0_init, hb, hb', uart0_config_writes, writesTo, List.filter, uart0_int_div,
      uart0_frac_div, uart0_frac_div2, uart0_baud16]

/-- Witness for c1_divisor_writes at the documented example input
(3 MHz UART clock, 115200 baud). -/
theorem c1_divisor_writes_witness :
    ((115200 : Nat) * 16 % U32MOD ≠ 0) ∧
    ((uart0_init true true 3000000 115200).1.filter (writesTo .IBRD) =
      [Ev.write .IBRD FULL (3000000 / (115200 * 16 % U32MOD))] ∧
    (uart0_init true true 3000000 115200).1.filter (writesTo .FBRD) =
      [Ev.write .FBRD FULL
        (3000000 % (115200 * 16 % U32MOD) * 8 % U32MOD / 115200 / 2 +
         3000000 % (115200 * 16 % U32MOD) * 8 % U32MOD / 115200 % 2)] ∧
    (uart0_init true true 3000000 115200).2 = some (Except.ok ())) :=
  ⟨by decide, c1_divisor_writes true true 3000000 115200 rfl rfl (by decide)⟩

/-- C3: if the GPIO pin lease fails for either of pins 32 and 33, UART0
init returns the InitializationFailed error having performed no register
write, and Uart0::initialize leaves the handle unchanged, so a handle that
was Uninitialized stays Uninitialized. -/
theorem c3_pin_failure (pin32ok pin33ok : Bool) (clock_rate baud_rate : Nat)
    (h : pin32ok = false ∨ pin33ok = false) :
    uart0_init pin32ok pin33ok clock_rate baud_rate =
      ([], some (Except.error UartErrorType.InitializationFailed)) ∧
    ∀ u : Uart0, uart0_after_init u pin32ok pin33ok clock_rate baud_rate = u := by
  have hpins : (pin32ok && pin33ok) = false := by
    rcases h with h | h <;> subst h <;> simp
  constructor
  · simp [uart0_init, hpins]
  · intro u
    simp [uart0_after_init, uart0_init, hpins]

/-- Witness for c3_pin_failure: pin 32 lease fails. -/
theorem c3_pin_failure_witness :
    ((false = false ∨ true = false)) ∧
    (uart0_init false true 3000000 115200 =
      ([], some (Except.error UartErrorType.InitializationFailed)) ∧
    ∀ u : Uart0, uart0_after_init u false true 3000000 115200 = u) :=
  ⟨Or.inl rfl, c3_pin_failure false true 3000000 115200 (Or.inl rfl)⟩

/-- C4: on a handle that was never successfully initialized, every send and
receive operation of both variants performs no hardware register access
(empty event trace) and returns a defined value without panicking: the
UART0 operations and the UART1 receive return the not-initialized error,
the UART1 send operations return having transmitted nothing. -/
theorem c4_not_ready (u0 : Uart0) (u1 : Uart1)
    (h0 : u0.initialized = false) (h1 : u1.initialized = false) :
    (∀ data, u0.send_data data = ([], Except.error UartErrorType.UartNotInitialized)) ∧
    (∀ n dr, u0.receive_data n dr = ([], Except.error UartErrorType.UartNotInitialized)) ∧
    (∀ c, u1.send_char c = []) ∧
    (∀ s, u1.send_string s = []) ∧
    (∀ d, u1.send_data d = []) ∧
    (∀ n readys vals, u1.try_receive_data n readys vals =
      ([], some (Except.error "Uart not initialized"))) := by
  refine ⟨?_, ?_, ?_, ?_, ?_, ?_⟩ <;> intros <;>
    simp [Uart0.send_data, Uart0.receive_data, Uart1.send_char, Uart1.send_string,
      Uart1.send_data, Uart1.try_receive_data, h0, h1]

/-- Witness for c4_not_ready on freshly constructed handles. -/
theorem c4_not_ready_witness :
    ((Uart0.new).initialized = false) ∧ ((⟨false⟩ : Uart1).initialized = false) ∧
    ((∀ data, (Uart0.new).send_data data =
        ([], Except.error UartErrorType.UartNotInitialized)) ∧
    (∀ n dr, (Uart0.new).receive_data n dr =
        ([], Except.error UartErrorType.UartNotInitialized)) ∧
    (∀ c, (⟨false⟩ : Uart1).send_char c = []) ∧
    (∀ s, (⟨false⟩ : Uart1).send_string s = []) ∧
    (∀ d, (⟨false⟩ : Uart1).send_data d = []) ∧
    (∀ n readys vals, (⟨false⟩ : Uart1).try_receive_data n readys vals =
      ([], some (Except.error "Uart not initialized")))) :=
  ⟨rfl, rfl, c4_not_ready Uart0.new ⟨false⟩ rfl rfl⟩

/-- C2 (counterexample): at the documented example inputs the write order
contradicts the claim twice. UART-Mini's very first register write is the
AUX master-enable (an enable write preceding every configuration write,
against the claimed rule that no enable write precedes a configuration
write, and against the claim that the master enable comes last), while a
configuration write (line format) only follows at index 3. UART-Full
writes the baud divisor at index 3 before the line-format register at
index 6, against the claimed order line format first, then baud divisor. -/
theorem c2_counterexample :
    (uart1_init true true 250000000 115200).1[0]? = some (Ev.write .AUX_ENABLES 1 1) ∧
    (uart1_init true true 250000000 115200).1[3]? = some (Ev.write .AUX_MU_LCR_REG 3 3) ∧
    (uart0_init true true 3000000 115200).1[3]? = some (Ev.write .IBRD FULL 1) ∧
    (uart0_init true true 3000000 115200).1[6]? = some (Ev.write .LCRH 112 112) := by
  refine ⟨?_, ?_, ?_, ?_⟩ <;> decide

/-- C2 (amended): both initializations disable the peripheral's
transmit/receive/interrupt paths before reconfiguring and enable transmit
and receive only after every configuration write, with these deviations
from the claimed order: UART-Mini's first write is the AUX master-enable
bit, before the disables; UART-Mini configures line format (index 3)
before clearing the FIFOs (index 6); UART-Full writes the baud divisor
(index 3) before the line-format register (index 6); and UART-Full issues
one further write (the interrupt-mask enable, index 8) after the
transmit/receive enable (index 7). The only write to the control/enable
register before each final enable is its initial disable. -/
theorem c2_init_order (clock_rate baud_rate : Nat)
    (h0 : baud_rate * 16 % U32MOD ≠ 0) (h1 : 8 * baud_rate % U32MOD ≠ 0) :
    ((uart0_init true true clock_rate baud_rate).1.length = 9 ∧
     (uart0_init true true clock_rate baud_rate).1[0]? = some (Ev.write .CR FULL 0) ∧
     (uart0_init true true clock_rate baud_rate).1[1]? = some (Ev.write .IMSC FULL 0) ∧
     (uart0_init true true clock_rate baud_rate).1[3]? =
       some (Ev.write .IBRD FULL (uart0_int_div clock_rate baud_rate)) ∧
     (uart0_init true true clock_rate baud_rate).1[6]? = some (Ev.write .LCRH 112 112) ∧
     (uart0_init true true clock_rate baud_rate).1[7]? = some (Ev.write .CR 769 769) ∧
     (uart0_init true true clock_rate baud_rate).1[8]? = some (Ev.write .IMSC 1040 1040) ∧
     ((uart0_init true true clock_rate baud_rate).1.take 7).filter (writesTo .CR) =
       [Ev.write Uart0Reg.CR FULL 0]) ∧
    ((uart1_init true true clock_rate baud_rate).1.length = 9 ∧
     (uart1_init true true clock_rate baud_rate).1[0]? = some (Ev.write .AUX_ENABLES 1 1) ∧
     (uart1_init true true clock_rate baud_rate).1[1]? =
       some (Ev.write .AUX_MU_IER_REG FULL 0) ∧
     (uart1_init true true clock_rate baud_rate).1[2]? =
       some (Ev.write .AUX_MU_CNTL_REG FULL 0) ∧
     (uart1_init true true clock_rate baud_rate).1[3]? =
       some (Ev.write .AUX_MU_LCR_REG 3 3) ∧
     (uart1_init true true clock_rate baud_rate).1[6]? =
       some (Ev.write .AUX_MU_IIR_REG 198 198) ∧
     (uart1_init true true clock_rate baud_rate).1[7]? =
       some (Ev.write .AUX_MU_BAUD_REG FULL (uart1_baud_divisor clock_rate baud_rate)) ∧
     (uart1_init true true clock_rate baud_rate).1[8]? =
       some (Ev.write .AUX_MU_CNTL_REG 3 3) ∧
     ((uart1_init true true clock_rate baud_rate).1.take 8).filter
         (writesTo .AUX_MU_CNTL_REG) =
       [Ev.write AuxReg.AUX_MU_CNTL_REG FULL 0]) := by
  have hb' : uart0_baud16 baud_rate ≠ 0 := h0
  constructor
  · refine ⟨?_, ?_, ?_, ?_, ?_, ?_, ?_, ?_⟩ <;>
      simp [uart0_init, h0, hb', uart0_config_writes, writesTo, List.filter]
  · refine ⟨?_, ?_, ?_, ?_, ?_, ?_, ?_, ?_, ?_⟩ <;>
      simp [uart1_init, h1, uart1_config_writes, uart1_partial_writes, writesTo,
        List.filter]

/-- Witness for c2_init_order at the documented example inputs. -/
theorem c2_init_order_witness :
    ((115200 : Nat) * 16 % U32MOD ≠ 0) ∧ ((8 : Nat) * 115200 % U32MOD ≠ 0) ∧
    (((uart0_init true true 3000000 115200).1.length = 9 ∧
     (uart0_init true true 3000000 115200).1[0]? = some (Ev.write .CR FULL 0) ∧
     (uart0_init true true 3000000 115200).1[1]? = some (Ev.write .IMSC FULL 0) ∧
     (uart0_init true true 3000000 115200).1[3]? =
       some (Ev.write .IBRD FULL (uart0_int_div 3000000 115200)) ∧
     (uart0_init true true 3000000 115200).1[6]? = some (Ev.write .LCRH 112 112) ∧
     (uart0_init true true 3000000 115200).1[7]? = some (Ev.write .CR 769 769) ∧
     (uart0_init true true 3000000 115200).1[8]? = some (Ev.write .IMSC 1040 1040) ∧
     ((uart0_init true true 3000000 115200).1.take 7).filter (writesTo .CR) =
       [Ev.write Uart0Reg.CR FULL 0]) ∧
    ((uart1_init true true 3000000 115200).1.length = 9 ∧
     (uart1_init true true 3000000 115200).1[0]? = some (Ev.write .AUX_ENABLES 1 1) ∧
     (uart1_init true true 3000000 115200).1[1]? =
       some (Ev.write .AUX_MU_IER_REG FULL 0) ∧
     (uart1_init true true 3000000 115200).1[2]? =
       some (Ev.write .AUX_MU_CNTL_REG FULL 0) ∧
     (uart1_init true true 3000000 115200).1[3]? =
       some (Ev.write .AUX_MU_LCR_REG 3 3) ∧
     (uart1_init true true 3000000 115200).1[6]? =
       some (Ev.write .AUX_MU_IIR_REG 198 198) ∧
     (uart1_init true true 3000000 115200).1[7]? =
       some (Ev.write .AUX_MU_BAUD_REG FULL (uart1_baud_divisor 3000000 115200)) ∧
     (uart1_init true true 3000000 115200).1[8]? =
       some (Ev.write .AUX_MU_CNTL_REG 3 3) ∧
     ((uart1_init true true 3000000 115200).1.take 8).filter
         (writesTo .AUX_MU_CNTL_REG) =
       [Ev.write AuxReg.AUX_MU_CNTL_REG FULL 0])) :=
  ⟨by decide, by decide, c2_init_order 3000000 115200 (by decide) (by decide)⟩

/-- C8: for UART-Mini, enabling interrupts for one direction leaves the
other direction's enable bit (and all bits above the RCV_IRQ field)
unchanged, sets the requested direction's bit, and writes the shared
two-bit enable-mask field RCV_IRQ with both bits set; the shared field is
written with both bits set in every branch, including enabling both
directions at once. Bit 0 is RX_ENABLE, bit 1 TX_ENABLE, bits 2-3 RCV_IRQ. -/
theorem c8_enable_interrupts_frame (old : Nat) :
    (uart1_enable_interrupts .Receive old % 2 = 1 ∧
     uart1_enable_interrupts .Receive old / 2 % 2 = old / 2 % 2 ∧
     uart1_enable_interrupts .Receive old / 4 % 4 = 3 ∧
     uart1_enable_interrupts .Receive old / 16 = old / 16) ∧
    (uart1_enable_interrupts .Transmit old / 2 % 2 = 1 ∧
     uart1_enable_interrupts .Transmit old % 2 = old % 2 ∧
     uart1_enable_interrupts .Transmit old / 4 % 4 = 3 ∧
     uart1_enable_interrupts .Transmit old / 16 = old / 16) ∧
    uart1_enable_interrupts .RecieveTransmit old / 4 % 4 = 3 := by
  simp only [uart1_enable_interrupts, ier_field_write]
  refine ⟨⟨?_, ?_, ?_, ?_⟩, ⟨?_, ?_, ?_, ?_⟩, ?_⟩ <;> omega

/-- C9 (counterexample): registering an interrupt handler for the Transmit
direction on an initialized UART-Mini handle installs nothing (the
transmit slot stays empty) and enables no interrupt source, because the
match arm for everything but Receive is a no-op; the claim that
register_interrupt_handler installs the callback and enables the matching
source for every direction is false. -/
theorem c9_counterexample :
    (register_interrupt_handler ⟨true⟩ ⟨none, none⟩ InterruptType.Transmit 7).1.trn =
      none ∧
    (register_interrupt_handler ⟨true⟩ ⟨none, none⟩ InterruptType.Transmit 7).2 =
      none :=
  ⟨rfl, rfl⟩

/-- C9 (amended): register_interrupt_handler installs the callback and
enables the matching interrupt source only for the Receive direction (and
the source is enabled only when the handle is initialized, since
enable_interrupts is gated on the flag); for Transmit and ReceiveTransmit
it is a complete no-op: the slots are unchanged and no source is enabled. -/
theorem c9_register_receive_only (u : Uart1) (s : IrqSlots) (f : Nat) :
    (register_interrupt_handler u s InterruptType.Receive f).1.rcv = some f ∧
    (register_interrupt_handler u s InterruptType.Receive f).1.trn = s.trn ∧
    (register_interrupt_handler u s InterruptType.Receive f).2 =
      (if u.initialized then some InterruptType.Receive else none) ∧
    register_interrupt_handler u s InterruptType.Transmit f = (s, none) ∧
    register_interrupt_handler u s InterruptType.RecieveTransmit f = (s, none) :=
  ⟨rfl, rfl, rfl, rfl, rfl⟩

/-- C6 (counterexample): at clock_rate = 1599 and baud_rate = 100 (which
satisfy clock_rate at least 8 times baud_rate) the UART-Mini divisor is
1599 / 800 - 1 = 0, and the re-derived rate 1599 / (8 * (0 + 1)) = 199
differs from 100 by 99, far more than the one unit the claim allows. -/
theorem c6_counterexample :
    ((8 : Nat) * 100 ≤ 1599) ∧
    uart1_baud_divisor 1599 100 = 0 ∧
    (1599 : Nat) / (8 * (uart1_baud_divisor 1599 100 + 1)) = 199 ∧
    ¬((1599 : Nat) / (8 * (uart1_baud_divisor 1599 100 + 1)) ≤ 100 + 1) := by
  refine ⟨?_, ?_, ?_, ?_⟩ <;> decide

/-- C6 (amended): for clock_rate at least 8 times a positive baud_rate
(u32 inputs), the quotient clock_rate / (8 * baud_rate) is at least one,
so the u32 subtraction in the UART-Mini divisor does not underflow and the
divisor equals that quotient minus one. The re-derived rate
clock_rate / (8 * (divisor + 1)) is at least baud_rate, and its excess
over baud_rate is below baud_rate / quotient (stated as the integer
inequality quotient * rederived < baud_rate * (quotient + 1)); it is NOT
within one unit of baud_rate in general. -/
theorem c6_divisor_bounds (clock_rate baud_rate : Nat) (hb : 0 < baud_rate)
    (hc : 8 * baud_rate ≤ clock_rate) (hu : clock_rate < U32MOD) :
    1 ≤ clock_rate / (8 * baud_rate) ∧
    uart1_baud_divisor clock_rate baud_rate = clock_rate / (8 * baud_rate) - 1 ∧
    baud_rate ≤ clock_rate / (8 * (uart1_baud_divisor clock_rate baud_rate + 1)) ∧
    clock_rate / (8 * baud_rate) *
        (clock_rate / (8 * (uart1_baud_divisor clock_rate baud_rate + 1))) <
      baud_rate * (clock_rate / (8 * baud_rate) + 1) := by
  have hB : 0 < 8 * baud_rate := by omega
  have hBM : 8 * baud_rate % U32MOD = 8 * baud_rate :=
    Nat.mod_eq_of_lt (lt_of_le_of_lt hc hu)
  obtain ⟨Q, hQ⟩ : ∃ Q, clock_rate / (8 * baud_rate) = Q := ⟨_, rfl⟩
  have hq1 : 1 ≤ Q := hQ ▸ (Nat.one_le_div_iff hB).2 hc
  have hqM : Q < U32MOD := hQ ▸ lt_of_le_of_lt (Nat.div_le_self _ _) hu
  have hdiv : uart1_baud_divisor clock_rate baud_rate = Q - 1 := by
    unfold uart1_baud_divisor
    rw [hBM, hQ]
    have h1 : Q + U32MOD - 1 = U32MOD + (Q - 1) := by omega
    rw [h1, Nat.add_mod_left, Nat.mod_eq_of_lt (by omega)]
  rw [hQ, hdiv, show Q - 1 + 1 = Q by omega]
  refine ⟨hq1, rfl, ?_, ?_⟩
  · refine (Nat.le_div_iff_mul_le (by omega : 0 < 8 * Q)).2 ?_
    have h5 : clock_rate / (8 * baud_rate) * (8 * baud_rate) ≤ clock_rate :=
      Nat.div_mul_le_self _ _
    rw [hQ] at h5
    calc baud_rate * (8 * Q) = Q * (8 * baud_rate) := by ring
      _ ≤ clock_rate := h5
  · have e1 : clock_rate / (8 * Q) = clock_rate / 8 / Q := by
      rw [Nat.div_div_eq_div_mul]
    have h2 : clock_rate / 8 / Q * Q ≤ clock_rate / 8 := Nat.div_mul_le_self _ _
    have hdm : 8 * baud_rate * Q + clock_rate % (8 * baud_rate) = clock_rate := by
      have h := Nat.div_add_mod clock_rate (8 * baud_rate)
      rw [hQ] at h
      exact h
    have hml : clock_rate % (8 * baud_rate) < 8 * baud_rate := Nat.mod_lt _ hB
    have h3 : clock_rate < 8 * baud_rate * Q + 8 * baud_rate := by
      calc clock_rate = 8 * baud_rate * Q + clock_rate % (8 * baud_rate) := hdm.symm
        _ < 8 * baud_rate * Q + 8 * baud_rate := Nat.add_lt_add_left hml _
    have h4 : clock_rate / 8 < baud_rate * (Q + 1) := by
      rw [Nat.div_lt_iff_lt_mul (by norm_num : (0 : Nat) < 8)]
      calc clock_rate < 8 * baud_rate * Q + 8 * baud_rate := h3
        _ = baud_rate * (Q + 1) * 8 := by ring
    calc Q * (clock_rate / (8 * Q)) = clock_rate / 8 / Q * Q := by rw [e1, Nat.mul_comm]
      _ ≤ clock_rate / 8 := h2
      _ < baud_rate * (Q + 1) := h4

/-- Witness for c6_divisor_bounds at the documented example input. -/
theorem c6_divisor_bounds_witness :
    ((0 : Nat) < 115200) ∧ ((8 : Nat) * 115200 ≤ 3000000) ∧ ((3000000 : Nat) < U32MOD) ∧
    (1 ≤ (3000000 : Nat) / (8 * 115200) ∧
    uart1_baud_divisor 3000000 115200 = 3000000 / (8 * 115200) - 1 ∧
    115200 ≤ (3000000 : Nat) / (8 * (uart1_baud_divisor 3000000 115200 + 1)) ∧
    (3000000 : Nat) / (8 * 115200) *
        (3000000 / (8 * (uart1_baud_divisor 3000000 115200 + 1))) <
      115200 * (3000000 / (8 * 115200) + 1)) :=
  ⟨by decide, by decide, by decide,
    c6_divisor_bounds 3000000 115200 (by decide) (by decide) (by decide)⟩

/-- C7 (counterexample): at clock_rate = 127 and baud_rate = 8 (a positive
baud rate whose product with 16 does not overflow u32) the fractional
remainder is (127 % 128) * 8 / 8 = 127 and the round-up in
frac_div = 127 / 2 + 127 % 2 yields 64, which does not fit the 6-bit
fractional-divisor field [0, 63]. -/
theorem c7_counterexample :
    ((0 : Nat) < 8) ∧ ((8 : Nat) * 16 < U32MOD) ∧
    uart0_frac_div2 127 8 = 127 ∧
    uart0_frac_div 127 8 = 64 ∧
    ¬(uart0_frac_div 127 8 ≤ 63) := by
  refine ⟨?_, ?_, ?_, ?_, ?_⟩ <;> decide

/-- C7 (amended): for every clock_rate and every positive baud_rate with
baud_rate * 16 below 2^32, the fractional remainder is at most 127 (even
when the intermediate u32 multiplication by 8 wraps), so the UART-Full
fractional divisor frac_div lies in [0, 64]: one more than the 6-bit
field's maximum, the value 64 being reached exactly when the remainder is
127. -/
theorem c7_frac_div_bound (clock_rate baud_rate : Nat) (hb : 0 < baud_rate)
    (ho : baud_rate * 16 < U32MOD) :
    uart0_frac_div2 clock_rate baud_rate ≤ 127 ∧
    uart0_frac_div clock_rate baud_rate ≤ 64 := by
  have h16 : 0 < baud_rate * 16 := by omega
  have hBM : uart0_baud16 baud_rate = baud_rate * 16 := by
    unfold uart0_baud16
    exact Nat.mod_eq_of_lt ho
  obtain ⟨r, hr⟩ : ∃ r, clock_rate % (baud_rate * 16) = r := ⟨_, rfl⟩
  have h1 : r < baud_rate * 16 := hr ▸ Nat.mod_lt _ h16
  obtain ⟨m, hm⟩ : ∃ m, r * 8 % U32MOD = m := ⟨_, rfl⟩
  have h2 : m ≤ r * 8 := hm ▸ Nat.mod_le _ _
  have h4 : uart0_frac_div2 clock_rate baud_rate < 128 := by
    unfold uart0_frac_div2
    rw [hBM, hr, hm, Nat.div_lt_iff_lt_mul hb]
    omega
  obtain ⟨d, hd⟩ : ∃ d, uart0_frac_div2 clock_rate baud_rate = d := ⟨_, rfl⟩
  rw [hd] at h4
  constructor
  · rw [hd]; omega
  · unfold uart0_frac_div
    rw [hd]
    omega

/-- Witness for c7_frac_div_bound at the 3 MHz / 115200 baud example. -/
theorem c7_frac_div_bound_witness :
    ((0 : Nat) < 115200) ∧ ((115200 : Nat) * 16 < U32MOD) ∧
    (uart0_frac_div2 3000000 115200 ≤ 127 ∧ uart0_frac_div 3000000 115200 ≤ 64) :=
  ⟨by decide, by decide, c7_frac_div_bound 3000000 115200 (by decide) (by decide)⟩

/-- With a positive timeout the byte loop returns Ok when every awaited
byte becomes ready within the budget. -/
lemma uart1_receive_loop_ok (t : Nat) (ht : t ≠ 0) (readys : Nat → Option Nat)
    (vals : Nat → Nat) (i m : Nat)
    (h : ∀ j, j < m → readyWithin (readys (i + j)) t = true) :
    (uart1_receive_loop t readys vals i m).2 = some (Except.ok ()) := by
  induction m generalizing i with
  | zero => simp [uart1_receive_loop]
  | succ m ih =>
    have h0 : readyWithin (readys i) t = true := by
      have := h 0 (by omega)
      simpa using this
    cases hr : readys i with
    | none => rw [hr] at h0; simp [readyWithin] at h0
    | some k =>
      have hk : k < t := by
        rw [hr] at h0
        simpa [readyWithin] using h0
      have htail : ∀ j, j < m → readyWithin (readys (i + 1 + j)) t = true := by
        intro j hj
        have := h (j + 1) (by omega)
        rwa [show i + (j + 1) = i + 1 + j by omega] at this
      simp [uart1_receive_loop, uart1_receive_data, hr, hk, ih (i + 1) htail]

/-- With a positive timeout the byte loop returns the Timeout error as soon
as any awaited byte in range misses the budget. -/
lemma uart1_receive_loop_err (t : Nat) (ht : t ≠ 0) (readys : Nat → Option Nat)
    (vals : Nat → Nat) (i m : Nat)
    (h : ∃ j, j < m ∧ readyWithin (readys (i + j)) t = false) :
    (uart1_receive_loop t readys vals i m).2 = some (Except.error "Timeout") := by
  induction m generalizing i with
  | zero =>
    obtain ⟨j, hj, _⟩ := h
    omega
  | succ m ih =>
    cases hr : readys i with
    | none => simp [uart1_receive_loop, uart1_receive_data, hr, ht]
    | some k =>
      by_cases hk : k < t
      · obtain ⟨j, hj, hfail⟩ := h
        have hj0 : j ≠ 0 := by
          intro h0
          subst h0
          rw [show i + 0 = i by omega, hr] at hfail
          simp [readyWithin, hk] at hfail
        have htail : ∃ j, j < m ∧ readyWithin (readys (i + 1 + j)) t = false := by
          refine ⟨j - 1, by omega, ?_⟩
          rwa [show i + 1 + (j - 1) = i + j by omega]
        simp [uart1_receive_loop, uart1_receive_data, hr, hk, ih (i + 1) htail]
      · simp [uart1_receive_loop, uart1_receive_data, hr, hk, ht]

/-- C5: on a Ready UART-Mini handle and a non-empty buffer of n bytes, the
bounded multi-byte receive returns exactly n when every byte becomes ready
within the fixed 1000-poll budget, and returns the bare Timeout failure as
soon as any single byte misses the budget: the error carries no count, so
bytes already pulled from the FIFO before the timeout are not reported to
the caller. -/
theorem c5_bounded_receive (u : Uart1) (hu : u.initialized = true) (n : Nat)
    (hn : 1 ≤ n) (readys : Nat → Option Nat) (vals : Nat → Nat) :
    ((∀ i, i < n → readyWithin (readys i) 1000 = true) →
      (u.try_receive_data n readys vals).2 = some (Except.ok n)) ∧
    ((∃ i, i < n ∧ readyWithin (readys i) 1000 = false) →
      (u.try_receive_data n readys vals).2 = some (Except.error "Timeout")) := by
  have hn0 : n ≠ 0 := by omega
  constructor
  · intro hall
    have hloop := uart1_receive_loop_ok 1000 (by norm_num) readys vals 0 n
      (fun j hj => by simpa using hall j hj)
    rcases hL : uart1_receive_loop 1000 readys vals 0 n with ⟨evs, res⟩
    rw [hL] at hloop
    simp only at hloop
    subst hloop
    simp [Uart1.try_receive_data, hu, hn0, hL]
  · intro hfail
    have hloop := uart1_receive_loop_err 1000 (by norm_num) readys vals 0 n
      (by
        obtain ⟨i, hi, hf⟩ := hfail
        exact ⟨i, hi, by simpa using hf⟩)
    rcases hL : uart1_receive_loop 1000 readys vals 0 n with ⟨evs, res⟩
    rw [hL] at hloop
    simp only at hloop
    subst hloop
    simp [Uart1.try_receive_data, hu, hn0, hL]

/-- Witness for c5_bounded_receive: a Ready handle and a two-byte buffer
with data ready at the first poll for every byte. -/
theorem c5_bounded_receive_witness :
    ((⟨true⟩ : Uart1).initialized = true) ∧ (1 ≤ 2) ∧
    (((∀ i, i < 2 → readyWithin ((fun _ => some 0) i) 1000 = true) →
      ((⟨true⟩ : Uart1).try_receive_data 2 (fun _ => some 0) (fun _ => 0)).2 =
        some (Except.ok 2)) ∧
    ((∃ i, i < 2 ∧ readyWithin ((fun _ => some 0) i) 1000 = false) →
      ((⟨true⟩ : Uart1).try_receive_data 2 (fun _ => some 0) (fun _ => 0)).2 =
        some (Except.error "Timeout"))) :=
  ⟨rfl, by omega, c5_bounded_receive ⟨true⟩ rfl 2 (by omega) (fun _ => some 0) (fun _ => 0)⟩

/-- Every transmitted byte contributes one status spin and one data write. -/
lemma uart1_send_data_events_length (data : List Nat) :
    (uart1_send_data_events data).length = 2 * data.length := by
  induction data with
  | nil => rfl
  | cons b bs ih =>
    simp only [uart1_send_data_events, List.map, concatAll] at *
    simp [ih]
    omega

/-- A code point of 0x100 or above UTF-8-encodes to at least two bytes. -/
lemma utf8_encode_char_length_ge_two (c : Nat) (h : 256 ≤ c) :
    2 ≤ (utf8_encode_char c).length := by
  unfold utf8_encode_char
  rw [if_neg (by omega : ¬ c < 128)]
  by_cases h2 : c < 2048
  · rw [if_pos h2]
    simp
  · rw [if_neg h2]
    by_cases h3 : c < 65536 <;> simp [h3]

/-- C10: on a Ready UART-Mini handle, send_char of a char with code point
c transmits exactly one byte, the low 8 bits c % 256 (the Rust cast
c as u8), preceded only by the transmit-ready spin; for code points of
0x100 and above this differs from send_string of the one-character string,
which transmits the multi-byte UTF-8 encoding instead of truncating. -/
theorem c10_send_char_truncation (c : Nat) (hc : c < 1114112) (u : Uart1)
    (hu : u.initialized = true) :
    u.send_char c =
      [Ev.spin .AUX_MU_LSR_REG, Ev.write .AUX_MU_IO_REG FULL (c % 256)] ∧
    (256 ≤ c → u.send_string [c] ≠ u.send_char c) := by
  constructor
  · simp [Uart1.send_char, hu, uart1_send_data_events, concatAll, rust_char_as_u8]
  · intro h hEq
    have h1 : (u.send_string [c]).length = 2 * (utf8_encode_char c).length := by
      simp [Uart1.send_string, hu, concatAll, uart1_send_data_events_length]
    have h2 : (u.send_char c).length = 2 := by
      simp [Uart1.send_char, hu, uart1_send_data_events, concatAll]
    have h3 := utf8_encode_char_length_ge_two c h
    have h4 : (u.send_string [c]).length = (u.send_char c).length := by rw [hEq]
    omega

/-- Witness for c10_send_char_truncation at the code point 0x3C0 (greek
small pi), which UTF-8-encodes to two bytes but is sent as one. -/
theorem c10_send_char_truncation_witness :
    ((960 : Nat) < 1114112) ∧ ((⟨true⟩ : Uart1).initialized = true) ∧
    ((⟨true⟩ : Uart1).send_char 960 =
      [Ev.spin .AUX_MU_LSR_REG, Ev.write .AUX_MU_IO_REG FULL (960 % 256)] ∧
    (256 ≤ 960 → (⟨true⟩ : Uart1).send_string [960] ≠ (⟨true⟩ : Uart1).send_char 960)) :=
  ⟨by omega, rfl, c10_send_char_truncation 960 (by omega) ⟨true⟩ rfl⟩

end RuspiroUart
